import Mathlib

/-!
Verification development for the SDS code-generation scripts.

Shallow embedding of three build scripts:
* the stylesheet aggregator (combine-css script, namespace `CSS`),
* the flat `.cursorrules` generator variant (namespace `P3`),
* `scripts/generate-cursorrules.js` (namespace `GCR`).

The regex-driven text scans of the scripts are embedded as character-list
scanners with JavaScript greedy-match semantics (maximal munch over disjoint
character classes; the one place where regex backtracking is observable,
the `\s*([^;\n]+)` tail of the field pattern, is modelled explicitly).
Filesystems are modelled as structures of total maps: a directory-listing
map, and a partial map from path to file contents; `writeFileSync` is a
pointwise update of the contents map.
-/

-- ── shared character classes and scanning primitives ───────────────────────

/-- JavaScript `\w`: ASCII letters, digits, underscore. -/
def isWordChar (c : Char) : Bool :=
  ('a' ≤ c && c ≤ 'z') || ('A' ≤ c && c ≤ 'Z') || ('0' ≤ c && c ≤ '9') || c = '_'

/-- JavaScript `\s`, restricted to the ASCII whitespace the sources contain. -/
def isSpaceChar (c : Char) : Bool :=
  c = ' ' || c = '\t' || c = '\n' || c = '\r' || c = '\x0b' || c = '\x0c'

/-- Consume the literal `pat` from the front of `cs`; return the remainder. -/
def eatLit : List Char → List Char → Option (List Char)
  | [], cs => some cs
  | _ :: _, [] => none
  | p :: ps, c :: cs => if c = p then eatLit ps cs else none

/-- Consume one-or-more whitespace (`\s+`), greedily. -/
def eatWs1 (cs : List Char) : Option (List Char) :=
  match cs with
  | [] => none
  | c :: rest => if isSpaceChar c then some (rest.dropWhile isSpaceChar) else none

/-- Consume one-or-more word characters (`\w+`), greedily, returning them. -/
def eatWord1 (cs : List Char) : Option (List Char × List Char) :=
  let w := cs.takeWhile isWordChar
  if w.isEmpty then none else some (w, cs.dropWhile isWordChar)

/-- Does `cs` start with `pat`? -/
def startsWithSub (pat cs : List Char) : Bool := (eatLit pat cs).isSome

/-- Does `cs` contain `pat` as a contiguous sublist? -/
def containsSub (pat : List Char) : List Char → Bool
  | [] => pat.isEmpty
  | c :: cs => startsWithSub pat (c :: cs) || containsSub pat cs

/-- `containsStr s pat`: substring test on strings. -/
def containsStr (s pat : String) : Bool := containsSub pat.data s.data

/-- `String.prototype.startsWith`. -/
def startsWithB (s pre : String) : Bool := startsWithSub pre.data s.data

/-- `String.prototype.endsWith`. -/
def endsWithB (s suf : String) : Bool := suf.data.isSuffixOf s.data

/-- `/^[A-Z]/.test name`. -/
def startsUpperB (s : String) : Bool :=
  match s.data with
  | [] => false
  | c :: _ => 'A' ≤ c && c ≤ 'Z'

/-- `String.prototype.trim` (over the modelled whitespace set). -/
def trimS (s : String) : String :=
  String.mk (((s.data.dropWhile isSpaceChar).reverse.dropWhile isSpaceChar).reverse)

/-- Driver for a global-flag regex `exec` loop: repeatedly try the matcher at
the current position; on a match, emit its result and resume after the match;
otherwise advance one character.  The fuel starts at the input length, which
suffices because every matcher consumes at least one character. -/
def scanAux {α : Type} (f : List Char → Option (α × List Char)) :
    Nat → List Char → List α
  | _, [] => []
  | 0, _ :: _ => []
  | fuel + 1, c :: cs =>
    match f (c :: cs) with
    | some (a, rest) => a :: scanAux f fuel rest
    | none => scanAux f fuel cs

/-- All matches of matcher `f` over `cs`, left to right, non-overlapping. -/
def scanAll {α : Type} (f : List Char → Option (α × List Char)) (cs : List Char) :
    List α :=
  scanAux f cs.length cs

/-- Concatenation of a list of strings (models a `+=` accumulation loop). -/
def sjoin : List String → String
  | [] => ""
  | s :: rest => s ++ sjoin rest

/-- `Array.prototype.join sep`. -/
def intercalateS (sep : String) : List String → String
  | [] => ""
  | x :: xs => x ++ sjoin (xs.map (fun y => sep ++ y))

/-- `path.join a b` (posix). -/
def joinP (a b : String) : String := a ++ "/" ++ b

-- ── part_001: the stylesheet aggregator (combine-css script) ───────────────

namespace CSS

/-- Filesystem as seen by the combine-css script: path → contents. -/
structure CFS where
  files : String → Option String

/-- `const cssFiles = ['reset.css', 'theme.css', 'index.css', 'icons.css', 'responsive.css']` -/
def cssFiles : List String := ["reset.css", "theme.css", "index.css", "icons.css", "responsive.css"]

/-- One iteration of the foundational-file loop: if `src/<f>` exists, append
a tag comment, its contents and a blank-line separator to the accumulator. -/
def cssStep (fs : CFS) (acc : String) (f : String) : String :=
  match fs.files ("src/" ++ f) with
  | some c => acc ++ ("/* " ++ f ++ " */\n") ++ c ++ "\n\n"
  | none => acc

/-- The foundational part of `combined`, accumulated over a file list. -/
def foundationalCss (fs : CFS) (l : List String) : String := l.foldl (cssStep fs) ""

/-- The full `combined` buffer: foundational files, then, if `dist/index.css`
exists, the component-styles tag and its contents. -/
def combinedCss (fs : CFS) : String :=
  match fs.files "dist/index.css" with
  | some c => foundationalCss fs cssFiles ++ "/* Component styles */\n" ++ c
  | none => foundationalCss fs cssFiles

/-- `writeFileSync(tsupCss, combined)`: overwrite `dist/index.css`. -/
def runCombine (fs : CFS) : CFS :=
  ⟨fun q => if q = "dist/index.css" then some (combinedCss fs) else fs.files q⟩

end CSS

-- ── part_003: the flat `.cursorrules` generator variant ────────────────────

namespace P3

def packageName : String := "@kzatsepin-xla/components"

def primitivesDir : String := "src/ui/primitives"

/-- One extracted prop field: `name`, optionality marker, declared type text. -/
structure PropField where
  name : String
  optional : Bool
  type : String
deriving DecidableEq, Repr

/-- Result of `extractProps`: the field list and the variant map (an
insertion-ordered association list, later assignments overwriting earlier
values in place, as JavaScript object keys do). -/
structure Extraction where
  props : List PropField
  variants : List (String × List String)
deriving DecidableEq, Repr

/-- Matcher for one occurrence of
`(?:interface|type)\s+\w*Props\w*\s*(?:extends\s+[^{]+)?\{([^}]*)\}`:
returns the captured `[^}]*` body and the remainder after the match.
The `\w*Props\w*` piece is modelled as the maximal word run, required to
contain `Props`. -/
def tryInterfaceAt (cs : List Char) : Option (List Char × List Char) := do
  let r1 ← match eatLit "interface".data cs with
    | some r => some r
    | none => eatLit "type".data cs
  let r2 ← eatWs1 r1
  let (w, r3) ← eatWord1 r2
  if containsSub "Props".data w then
    let r4 := r3.dropWhile isSpaceChar
    let r5 := match eatLit "extends".data r4 with
      | some t =>
        match eatWs1 t with
        | some t2 =>
          let nb := t2.takeWhile (fun c => c ≠ '{')
          if nb.isEmpty then r4 else t2.dropWhile (fun c => c ≠ '{')
        | none => r4
      | none => r4
    match r5 with
    | '{' :: r6 =>
      let body := r6.takeWhile (fun c => c ≠ '}')
      match r6.dropWhile (fun c => c ≠ '}') with
      | '}' :: r8 => some (body, r8)
      | _ => none
    | _ => none
  else none

/-- Matcher for one occurrence of `(\w+)(\?)?:\s*([^;\n]+)` inside a body.
The `\s*([^;\n]+)` tail backtracks in JavaScript: when only separators follow
the whitespace run, `\s*` gives back its last non-newline character, which
then satisfies `[^;\n]+` on its own. -/
def tryPropAt (cs : List Char) : Option ((String × Bool × String) × List Char) := do
  let (w, r1) ← eatWord1 cs
  let (opt, r2) :=
    match r1 with
    | '?' :: t => (true, t)
    | _ => (false, r1)
  match r2 with
  | ':' :: r3 =>
    let ws := r3.takeWhile isSpaceChar
    let r4 := r3.dropWhile isSpaceChar
    let ty := r4.takeWhile (fun c => c ≠ ';' ∧ c ≠ '\n')
    if ty.isEmpty then
      match (ws.reverse.dropWhile (fun c => c = '\n')) with
      | c0 :: _ =>
        some ((String.mk w, opt, trimS (String.mk [c0])),
          (ws.reverse.takeWhile (fun c => c = '\n')).reverse ++ r4)
      | [] => none
    else
      some ((String.mk w, opt, trimS (String.mk ty)),
        r4.dropWhile (fun c => c ≠ ';' ∧ c ≠ '\n'))
  | _ => none

/-- Matcher for `["'][^"']+["']`: one quoted literal, returning its content. -/
def eatQuoted (cs : List Char) : Option (List Char × List Char) :=
  match cs with
  | [] => none
  | c :: r1 =>
    if c = '"' ∨ c = '\'' then
      let content := r1.takeWhile (fun d => d ≠ '"' ∧ d ≠ '\'')
      if content.isEmpty then none
      else
        match r1.dropWhile (fun d => d ≠ '"' ∧ d ≠ '\'') with
        | d :: r3 => if d = '"' ∨ d = '\'' then some (content, r3) else none
        | [] => none
    else none

/-- Greedy tail of the union pattern: as many `\s*\|\s*["'][^"']+["']` units
as match; stops (without consuming) at the first unit that fails, which is
where the overall match ends. -/
def unionTailAux : Nat → List Char → List (List Char) → (List (List Char) × List Char)
  | 0, cs, acc => (acc, cs)
  | fuel + 1, cs, acc =>
    match cs.dropWhile isSpaceChar with
    | '|' :: t2 =>
      match eatQuoted (t2.dropWhile isSpaceChar) with
      | some (lit, rest) => unionTailAux fuel rest (acc ++ [lit])
      | none => (acc, cs)
    | _ => (acc, cs)

/-- Matcher for one occurrence of
`(\w+)\??\s*:\s*((?:["'][^"']+["']\s*\|\s*)+["'][^"']+["'])`: a field name
followed by a pipe-separated union of at least two quoted string literals.
Returns the field name and the literal contents. -/
def tryUnionAt (cs : List Char) : Option ((String × List String) × List Char) := do
  let (w, r1) ← eatWord1 cs
  let r2 := match r1 with | '?' :: t => t | _ => r1
  match r2.dropWhile isSpaceChar with
  | ':' :: r4 =>
    match eatQuoted (r4.dropWhile isSpaceChar) with
    | some (l1, rest1) =>
      let (lits, rest) := unionTailAux rest1.length rest1 [l1]
      if 2 ≤ lits.length then some ((String.mk w, lits.map String.mk), rest) else none
    | none => none
  | _ => none

/-- `variants[name] = values`: JavaScript object assignment keeps the original
key position on overwrite and appends new keys. -/
def upsertVar (l : List (String × List String)) (k : String) (v : List String) :
    List (String × List String) :=
  if l.any (fun p => p.1 == k) then l.map (fun p => if p.1 == k then (k, v) else p)
  else l ++ [(k, v)]

/-- `extractProps(filePath)` of the flat generator variant, as a function of
the file's text: props from all `*Props*` interface/type bodies, variants
from literal string-union matches over the whole text. -/
def extractProps (content : String) : Extraction :=
  let bodies := scanAll tryInterfaceAt content.data
  let props := (bodies.map (fun b =>
    (scanAll tryPropAt b).map (fun m => PropField.mk m.1 m.2.1 m.2.2))).flatten
  let unions := scanAll tryUnionAt content.data
  ⟨props, unions.foldl (fun acc kv => upsertVar acc kv.1 kv.2) []⟩

/-- One rendered props line: `  - name[?]: type (required|optional)\n`. -/
def propLine (p : PropField) : String :=
  "  - " ++ p.name ++ (if p.optional then "?" else "") ++ ": " ++ p.type ++
    " (" ++ (if p.optional then "optional" else "required") ++ ")\n"

/-- One rendered variants line: `  - key: "v1" | "v2"\n`. -/
def variantLine (kv : String × List String) : String :=
  "  - " ++ kv.1 ++ ": " ++
    intercalateS " | " (kv.2.map (fun v => "\"" ++ v ++ "\"")) ++ "\n"

/-- The documentation block built for one component from its source text. -/
def docFor (name : String) (content : String) : String :=
  let e := extractProps content
  name ++ "\n" ++
    ("Import: import \x7b " ++ name ++ " \x7d from \x27" ++ packageName ++
      "/ui/primitives/" ++ name ++ "\x27\n") ++
    (if e.props.isEmpty then "" else "Props:\n" ++ sjoin (e.props.map propLine)) ++
    (if e.variants.isEmpty then "" else "Variants:\n" ++ sjoin (e.variants.map variantLine))

/-- Filesystem as seen by the flat generator: the (existing) primitives
directory listing with `isDirectory` flags, and path → file contents. -/
structure JFS where
  dirents : List (String × Bool)
  files : String → Option String

/-- The component-group list: subdirectories of the primitives directory that
contain an `index.tsx`. -/
def componentsOf (fs : JFS) : List String :=
  ((fs.dirents.filter (fun d => d.2)).filter
    (fun d => (fs.files (joinP (joinP primitivesDir d.1) "index.tsx")).isSome)).map
    (fun d => d.1)

/-- `findComponentFile`: try `<name>.tsx`, then `index.tsx`, else `null`. -/
def findComponentFile (fs : JFS) (dir name : String) : Option String :=
  if (fs.files (joinP dir (name ++ ".tsx"))).isSome then some (joinP dir (name ++ ".tsx"))
  else if (fs.files (joinP dir "index.tsx")).isSome then some (joinP dir "index.tsx")
  else none

/-- The per-component map body: `null` when no file is found, otherwise the
documentation block (the located path always exists, so the read is total). -/
def docEntryOpt (fs : JFS) (name : String) : Option String :=
  match findComponentFile fs (joinP primitivesDir name) name with
  | none => none
  | some p => some (docFor name ((fs.files p).getD ""))

/-- `componentDocs`: per-component blocks with the `null`s filtered out. -/
def componentDocs (fs : JFS) : List String := (componentsOf fs).filterMap (docEntryOpt fs)

/-- The full `.cursorrules` template of the flat generator variant. -/
def cursorrulesOf (fs : JFS) : String :=
  "SDS - Simple Design System\n\nThis project uses the SDS component library (" ++
    packageName ++
    ").\nAlways import components from this package - never create custom versions of existing components.\n\nImport pattern:\n\n  // Individual component (tree-shakeable):\n  import \x7b Button \x7d from \x27" ++
    packageName ++
    "/ui/primitives/Button\x27\n\n  // Or from root (all components):\n  import \x7b Button, Input, Dialog \x7d from \x27" ++
    packageName ++
    "\x27\n\nDon\x27t forget styles - add this import once in your root layout:\n\n  import \x27" ++
    packageName ++ "/styles.css\x27\n\nAvailable Components (" ++
    toString (componentsOf fs).length ++ " primitives):\n\n" ++
    intercalateS "\n" (componentDocs fs) ++
    "\n\nGeneral Rules:\n- Use existing components from " ++ packageName ++
    " instead of writing custom HTML\n- All components support className prop for additional Tailwind styling\n- Use the variant/size props when available - don\x27t override styles manually\n- Components follow React Aria patterns for accessibility\n- Wrap forms in a <form> tag but use SDS Input, Select, Checkbox etc inside\n"

/-- `writeFileSync('.cursorrules', cursorrules)`. -/
def runPart3 (fs : JFS) : JFS :=
  ⟨fs.dirents, fun q => if q = ".cursorrules" then some (cursorrulesOf fs) else fs.files q⟩

end P3

-- ── scripts/generate-cursorrules.js ────────────────────────────────────────

namespace GCR

def dsTitle : String := "Simple Design System (SDS)"

def dsPackage : String := "@simple-ds/components"

def primitivesDir : String := "src/ui/primitives"

def outputFile : String := ".cursorrules"

/-- An extracted `export type/interface` declaration. -/
structure TypeDecl where
  name : String
  kind : String
  body : String
deriving DecidableEq, Repr

/-- The body scan of `extractBalancedBody`: walk forward accumulating
characters while tracking nested `{}`/`()` depth; for an interface stop once
the depth returns to zero after having gone positive, for a type alias stop
at the first top-level `;`; otherwise run to end of input. -/
def ebbGo (isInterface : Bool) : Int → Bool → List Char → List Char
  | _, _, [] => []
  | depth, started, c :: cs =>
    let depth1 := if c = '{' ∨ c = '(' then depth + 1 else depth
    let started1 := if c = '{' ∨ c = '(' then true else started
    let depth2 := if c = '}' ∨ c = ')' then depth1 - 1 else depth1
    c ::
      (if (isInterface && started1 && depth2 == 0) ||
          (!isInterface && depth2 == 0 && c == ';') then []
       else ebbGo isInterface depth2 started1 cs)

/-- `extractBalancedBody(source, idx, isInterface)`. -/
def extractBalancedBody (source : String) (idx : Nat) (isInterface : Bool) : String :=
  String.mk (ebbGo isInterface 0 false (source.data.drop idx))

/-- Matcher for one occurrence of
`export\s+(type|interface)\s+(\w+)(?:<[^>]*>)?\s*(?:=|extends\s+[^{]*)?`,
with the declaration body grabbed from the match end by the balanced scan
and trimmed, as `extractExportedTypes` does. -/
def tryTypeDeclAt (cs : List Char) : Option (TypeDecl × List Char) := do
  let r1 ← eatLit "export".data cs
  let r2 ← eatWs1 r1
  let (kind, r3) ←
    match eatLit "type".data r2 with
    | some r => some (("type", r) : String × List Char)
    | none =>
      match eatLit "interface".data r2 with
      | some r => some (("interface", r) : String × List Char)
      | none => none
  let r4 ← eatWs1 r3
  let (w, r5) ← eatWord1 r4
  let r6 :=
    match r5 with
    | '<' :: t =>
      match t.dropWhile (fun c => c ≠ '>') with
      | '>' :: t2 => t2
      | _ => r5
    | _ => r5
  let r7 := r6.dropWhile isSpaceChar
  let r8 :=
    match r7 with
    | '=' :: t => t
    | _ =>
      match eatLit "extends".data r7 with
      | some t =>
        match eatWs1 t with
        | some t2 => t2.dropWhile (fun c => c ≠ '{')
        | none => r7
      | none => r7
  let body := ebbGo (kind == "interface") 0 false r8
  some (⟨String.mk w, kind, trimS (String.mk body)⟩, r8)

/-- `extractExportedTypes(source)`. -/
def extractExportedTypes (source : String) : List TypeDecl :=
  scanAll tryTypeDeclAt source.data

/-- Matcher for `export\s+function\s+(\w+)\s*[<(]`. -/
def tryFnAt (cs : List Char) : Option (String × List Char) := do
  let r1 ← eatLit "export".data cs
  let r2 ← eatWs1 r1
  let r3 ← eatLit "function".data r2
  let r4 ← eatWs1 r3
  let (w, r5) ← eatWord1 r4
  match r5.dropWhile isSpaceChar with
  | c :: r7 => if c = '<' ∨ c = '(' then some (String.mk w, r7) else none
  | [] => none

/-- Matcher for `export\s+const\s+(\w+)\s*=`. -/
def tryConstAt (cs : List Char) : Option (String × List Char) := do
  let r1 ← eatLit "export".data cs
  let r2 ← eatWs1 r1
  let r3 ← eatLit "const".data r2
  let r4 ← eatWs1 r3
  let (w, r5) ← eatWord1 r4
  match r5.dropWhile isSpaceChar with
  | '=' :: r7 => some (String.mk w, r7)
  | _ => none

/-- `[...new Set(components)]`: de-duplicate keeping first occurrences. -/
def dedupAux : List String → List String → List String
  | _, [] => []
  | seen, x :: xs =>
    if seen.contains x then dedupAux seen xs else x :: dedupAux (x :: seen) xs

def dedupFirst (l : List String) : List String := dedupAux [] l

/-- `extractExportedComponents(source)`: all `export function` names, then
all `export const` names, de-duplicated. -/
def extractExportedComponents (source : String) : List String :=
  dedupFirst (scanAll tryFnAt source.data ++ scanAll tryConstAt source.data)

/-- `isComponent(name)`. -/
def isComponent (name : String) : Bool :=
  startsUpperB name && !(endsWithB name "Props")

/-- The depth-tracked collection loop of `extractOwnFields`, started at the
first `{`: opening braces are skipped, depth-1 text and the closing braces
of depth-2 blocks are collected, and the loop breaks when depth returns to
zero. -/
def ownFieldsGo : Int → List Char → List Char
  | _, [] => []
  | depth, c :: cs =>
    if c = '{' then ownFieldsGo (depth + 1) cs
    else if c = '}' then
      if depth - 1 = 0 then []
      else if depth - 1 = 1 then c :: ownFieldsGo (depth - 1) cs
      else ownFieldsGo (depth - 1) cs
    else if depth = 1 then c :: ownFieldsGo depth cs
    else ownFieldsGo depth cs

/-- Split on `;` or newline (JavaScript `split(/[;\n]/)`, empty pieces kept). -/
def splitSemiNl : List Char → List (List Char)
  | [] => [[]]
  | c :: cs =>
    if c = ';' ∨ c = '\n' then [] :: splitSemiNl cs
    else
      match splitSemiNl cs with
      | [] => [[c]]
      | l :: ls => (c :: l) :: ls

/-- `extractOwnFields(body)`: the immediate contents of the first `{...}`
block, split into trimmed, non-blank, non-comment field lines. -/
def extractOwnFields (body : String) : List String :=
  if body.data.contains '{' then
    let inner := ownFieldsGo 0 (body.data.dropWhile (fun c => c ≠ '{'))
    ((splitSemiNl inner).map (fun l => trimS (String.mk l))).filter
      (fun l => l ≠ "" && !(startsWithB l "//") && !(startsWithB l "/*") && !(startsWithB l "*"))
  else []

/-- One entry of `summariseProps`. -/
structure PropsSummary where
  name : String
  fields : List String
deriving DecidableEq, Repr

/-- `summariseProps(types)`: the `*Props`-named declarations with their own
field lists. -/
def summariseProps (types : List TypeDecl) : List PropsSummary :=
  (types.filter (fun t => endsWithB t.name "Props")).map
    (fun t => ⟨t.name, extractOwnFields t.body⟩)

/-- One analysed component group. -/
structure Analysis where
  dirName : String
  components : List String
  propsSummary : List PropsSummary
deriving DecidableEq, Repr

end GCR

namespace GCR

/-- The static per-group usage-example table of `generateExample`. -/
def examplesTable : List (String × String) :=
  [("Accordion", "<Accordion>\n  <AccordionItem title=\"Section 1\">Content 1</AccordionItem>\n  <AccordionItem title=\"Section 2\">Content 2</AccordionItem>\n</Accordion>"),
   ("Avatar", "<Avatar src=\"/photo.jpg\" alt=\"User\" size=\"medium\" />\n<AvatarButton initials=\"JD\" alt=\"John Doe\" />\n<AvatarGroup max=\x7b3\x7d>\n  <Avatar initials=\"AB\" alt=\"A\" />\n  <Avatar initials=\"CD\" alt=\"C\" />\n</AvatarGroup>"),
   ("Button", "<Button variant=\"primary\" size=\"medium\">Click me</Button>\n<ButtonDanger variant=\"danger-primary\">Delete</ButtonDanger>\n<ButtonGroup align=\"end\">\n  <Button variant=\"subtle\">Cancel</Button>\n  <Button variant=\"primary\">Save</Button>\n</ButtonGroup>"),
   ("Checkbox", "<CheckboxGroup label=\"Options\">\n  <CheckboxField label=\"Option A\" />\n  <CheckboxField label=\"Option B\" />\n</CheckboxGroup>"),
   ("Dialog", "<DialogTrigger>\n  <Button>Open Dialog</Button>\n  <DialogModal isDismissable>\n    <Dialog>\n      <DialogTitle>Title</DialogTitle>\n      <DialogDescription>Description text</DialogDescription>\n      <DialogBody>Body content</DialogBody>\n    </Dialog>\n  </DialogModal>\n</DialogTrigger>"),
   ("Fieldset", "<Form>\n  <Fieldset>\n    <Legend>Personal Information</Legend>\n    <FieldGroup>\n      <InputField label=\"Name\" />\n      <InputField label=\"Email\" type=\"email\" />\n    </FieldGroup>\n  </Fieldset>\n</Form>"),
   ("Icon", "<Icon size=\"24\">\n  \x7b/* SVG path children */\x7d\n</Icon>"),
   ("IconButton", "<IconButton aria-label=\"Settings\" variant=\"subtle\" size=\"small\">\n  <IconSettings />\n</IconButton>"),
   ("Image", "<Image src=\"/photo.jpg\" alt=\"Description\" aspectRatio=\"16-9\" size=\"medium\" />\n<Picture>\n  <PictureSource srcSet=\"/photo.webp\" type=\"image/webp\" />\n  <Image src=\"/photo.jpg\" alt=\"Fallback\" />\n</Picture>"),
   ("Input", "<InputField\n  label=\"Email\"\n  placeholder=\"you@example.com\"\n  description=\"We\x27ll never share your email.\"\n  errorMessage=\"Invalid email\"\n/>"),
   ("Link", "<Link href=\"/about\">About us</Link>"),
   ("ListBox", "<ListBox>\n  <ListBoxItem>Option 1</ListBoxItem>\n  <ListBoxItem>Option 2</ListBoxItem>\n</ListBox>"),
   ("Logo", "<Logo href=\"/\" />"),
   ("Menu", "<MenuButton label=\"Actions\" variant=\"subtle\">\n  <MenuItem>Edit</MenuItem>\n  <MenuSeparator />\n  <MenuItem>Delete</MenuItem>\n</MenuButton>"),
   ("Navigation", "<Navigation direction=\"row\">\n  <NavigationPill isSelected>Dashboard</NavigationPill>\n  <NavigationPill>Settings</NavigationPill>\n</Navigation>"),
   ("Notification", "<Notification variant=\"message\" isDismissible>\n  Your changes have been saved.\n</Notification>"),
   ("Pagination", "<Pagination>\n  <PaginationPrevious href=\"/page/1\" />\n  <PaginationList>\n    <PaginationPage href=\"/page/1\" current>1</PaginationPage>\n    <PaginationPage href=\"/page/2\">2</PaginationPage>\n  </PaginationList>\n  <PaginationNext href=\"/page/2\" />\n</Pagination>"),
   ("Radio", "<RadioGroup label=\"Plan\">\n  <RadioField label=\"Free\" value=\"free\" />\n  <RadioField label=\"Pro\" value=\"pro\" />\n</RadioGroup>"),
   ("Search", "<Search placeholder=\"Search...\" onSearch=\x7b(q) => console.log(q)\x7d />"),
   ("Select", "<SelectField label=\"Country\">\n  <SelectItem>United States</SelectItem>\n  <SelectItem>Germany</SelectItem>\n</SelectField>"),
   ("Slider", "<SliderField label=\"Volume\" minValue=\x7b0\x7d maxValue=\x7b100\x7d showOutput />"),
   ("Switch", "<SwitchGroup>\n  <SwitchField label=\"Dark mode\" />\n  <SwitchField label=\"Notifications\" />\n</SwitchGroup>"),
   ("Tab", "<Tabs>\n  <TabList>\n    <Tab id=\"overview\">Overview</Tab>\n    <Tab id=\"details\">Details</Tab>\n  </TabList>\n  <TabPanel id=\"overview\">Overview content</TabPanel>\n  <TabPanel id=\"details\">Details content</TabPanel>\n</Tabs>"),
   ("Table", "<Table striped>\n  <TableHead>\n    <TableColumn isRowHeader>Name</TableColumn>\n    <TableColumn>Email</TableColumn>\n  </TableHead>\n  <TableBody>\n    <TableRow>\n      <TableCell>Alice</TableCell>\n      <TableCell>alice@example.com</TableCell>\n    </TableRow>\n  </TableBody>\n</Table>"),
   ("Tag", "<Tag scheme=\"brand\" variant=\"primary\">New</Tag>\n<TagButton scheme=\"positive\" href=\"/promo\">Sale</TagButton>\n<TagToggleGroup selectionMode=\"multiple\">\n  <TagToggleList>\n    <TagToggle>React</TagToggle>\n    <TagToggle>Vue</TagToggle>\n  </TagToggleList>\n</TagToggleGroup>"),
   ("Text", "<TextTitleHero>Hero Title</TextTitleHero>\n<TextHeading>Section Heading</TextHeading>\n<Text>Body paragraph text.</Text>\n<TextSmall>Small caption text.</TextSmall>\n<TextPrice currency=\"$\" price=\"9.99\" label=\"/mo\" />"),
   ("Textarea", "<TextareaField\n  label=\"Message\"\n  placeholder=\"Type your message…\"\n  description=\"Max 500 characters\"\n/>"),
   ("Tooltip", "<DialogTrigger>\n  <Button>Hover me</Button>\n  <Tooltip>Helpful information</Tooltip>\n</DialogTrigger>")]

/-- `components[0] || dirName`. -/
def exampleHead (a : Analysis) : String :=
  match a.components with
  | [] => a.dirName
  | c :: _ => c

/-- `generateExample(analysis)`: the table entry for the group name, or the
generic opening/closing pair. -/
def generateExample (a : Analysis) : String :=
  match examplesTable.find? (fun p => p.1 == a.dirName) with
  | some p => p.2
  | none => "<" ++ exampleHead a ++ ">\x7b/* … */\x7d</" ++ exampleHead a ++ ">"

/-- The five lines pushed for one props summary inside a component block. -/
def psLines (ps : PropsSummary) : List String :=
  ["`" ++ ps.name ++ "`", "```ts",
   (if ps.fields.isEmpty then "  (extends base RAC / HTML props)"
    else intercalateS "\n" (ps.fields.map (fun f => "  " ++ f))),
   "```", ""]

/-- The lines pushed for one analysed component group. -/
def componentLines (a : Analysis) : List String :=
  ["### " ++ a.dirName, "",
   "**Import:** `import \x7b " ++ intercalateS ", " a.components ++ " \x7d from \"primitives\";`",
   ""] ++
  (if a.propsSummary.isEmpty then []
   else ["**Props:**", ""] ++ (a.propsSummary.map psLines).flatten) ++
  ["**Пример:**", "", "```tsx", generateExample a, "```", "", "---", ""]

/-- The static lines pushed before the per-component blocks. -/
def headerLines : List String :=
  ["# " ++ dsTitle, "",
   "> Auto-generated by `npm run generate:cursorrules`. Do not edit manually.",
   "",
   "## Правила использования",
   "",
   "- **ВСЕГДА** импортируй компоненты из алиаса `\"primitives\"` (определён в `vite.config.ts` и `tsconfig.json`).",
   "  Пример: `import \x7b Button, Input \x7d from \"primitives\";`",
   "- **НЕ** импортируй напрямую из `react-aria-components`, `@react-aria/*` или `@react-stately/*` — используй обёртки SDS.",
   "- Используй **TypeScript** для типизации всех компонентов и пропсов.",
   "- Для стилей используй **CSS-переменные** из `src/theme.css` (`var(--sds-color-*)`, `var(--sds-size-space-*)` и т.д.).",
   "- Для раскладки используй компоненты `Flex`, `Section`, `Grid` из `\"layout\"`.",
   "- Для иконок используй компоненты `Icon*` из `\"icons\"` (например, `import \x7b IconCheck \x7d from \"icons\"`).",
   "- Не создавай новые UI-компоненты без необходимости — сначала проверь, есть ли подходящий в библиотеке ниже.",
   "- Изучай stories в `src/stories/` для примеров использования компонентов.",
   "",
   "## Доступные компоненты",
   ""]

/-- The static lines pushed after the per-component blocks. -/
def footerLines : List String :=
  ["## Дополнительные импорты",
   "",
   "| Алиас | Путь | Описание |",
   "| --- | --- | --- |",
   "| `\"primitives\"` | `src/ui/primitives` | Все базовые компоненты |",
   "| `\"compositions\"` | `src/ui/compositions` | Сложные составные компоненты (Cards, Forms, Headers, Footers) |",
   "| `\"layout\"` | `src/ui/layout` | Flex, Section, Grid |",
   "| `\"icons\"` | `src/ui/icons` | SVG-иконки (IconCheck, IconX, …) |",
   "| `\"hooks\"` | `src/ui/hooks` | useMediaQuery и другие UI-хуки |",
   "| `\"images\"` | `src/ui/images` | Изображения-заглушки |",
   "| `\"utils\"` | `src/ui/utils` | Утилиты (AnchorOrButton и т.д.) |",
   "| `\"data\"` | `src/data` | Контексты, провайдеры, сервисы, хуки данных |",
   ""]

/-- `generateCursorRules(analyses)`: header, per-component blocks, footer,
joined with newlines (the analyses list is already `null`-filtered, so the
`if (!a) continue` guard never fires). -/
def generateCursorRules (analyses : List Analysis) : String :=
  intercalateS "\n" (headerLines ++ (analyses.map componentLines).flatten ++ footerLines)

/-- Filesystem as seen by `generate-cursorrules.js`: directory listings
(`readdirSync`), a directory predicate (`statSync().isDirectory()`), and
path → file contents.  Paths are repository-root-relative.  The one written
path, `.cursorrules`, sits in the repository root, whose listing is never
read, so the write leaves `dirs` unchanged. -/
structure GFS where
  dirs : String → Option (List String)
  isDir : String → Bool
  files : String → Option String

/-- A failed synchronous filesystem call (`ENOENT` throw). -/
inductive FsErr
  | enoent
deriving DecidableEq, Repr

/-- Insertion sort by the string order, modelling `Array.prototype.sort()`
on the (distinct) directory names. -/
def insertSorted (x : String) : List String → List String
  | [] => [x]
  | y :: ys => if decide (x < y) then x :: y :: ys else y :: insertSorted x ys

def sortStr : List String → List String
  | [] => []
  | x :: xs => insertSorted x (sortStr xs)

/-- `getComponentDirs`: immediate subdirectories of the primitives root,
sorted; throws if the root cannot be listed. -/
def getComponentDirs (fs : GFS) : Except FsErr (List String) :=
  match fs.dirs primitivesDir with
  | none => .error .enoent
  | some l => .ok (sortStr (l.filter (fun n => fs.isDir (joinP primitivesDir n))))

/-- `getTsxFiles`: the `.tsx` entries of a component folder. -/
def getTsxFiles (fs : GFS) (componentDir : String) : Except FsErr (List String) :=
  match fs.dirs componentDir with
  | none => .error .enoent
  | some l => .ok (l.filter (fun f => endsWithB f ".tsx"))

/-- The `allSource` accumulation loop: each file's contents plus a newline. -/
def readConcat (fs : GFS) (dir : String) : List String → String → Except FsErr String
  | [], acc => .ok acc
  | f :: rest, acc =>
    match fs.files (joinP dir f) with
    | none => .error .enoent
    | some c => readConcat fs dir rest (acc ++ c ++ "\n")

/-- `analyseComponent(dirName)`: `null` when the folder has no `.tsx` files,
otherwise the extracted component names and props summaries. -/
def analyseComponent (fs : GFS) (dirName : String) : Except FsErr (Option Analysis) :=
  match getTsxFiles fs (joinP primitivesDir dirName) with
  | .error e => .error e
  | .ok tsx =>
    if tsx.isEmpty then .ok none
    else
      match readConcat fs (joinP primitivesDir dirName) tsx "" with
      | .error e => .error e
      | .ok allSource =>
        .ok (some ⟨dirName, (extractExportedComponents allSource).filter isComponent,
          summariseProps (extractExportedTypes allSource)⟩)

/-- Sequential effectful map: the first thrown error aborts the whole run. -/
def mapE {α β : Type} (f : α → Except FsErr β) : List α → Except FsErr (List β)
  | [] => .ok []
  | x :: xs =>
    match f x with
    | .error e => .error e
    | .ok y =>
      match mapE f xs with
      | .error e => .error e
      | .ok ys => .ok (y :: ys)

/-- `writeFileSync(p, c)` on the modelled filesystem. -/
def writeG (fs : GFS) (p c : String) : GFS :=
  ⟨fs.dirs, fs.isDir, fun q => if q = p then some c else fs.files q⟩

/-- The whole `main` run: enumerate groups, analyse each, drop the `null`s,
render the document, and write it to `.cursorrules` in one final write. -/
def runGenMain (fs : GFS) : Except FsErr GFS :=
  match getComponentDirs fs with
  | .error e => .error e
  | .ok ds =>
    match mapE (analyseComponent fs) ds with
    | .error e => .error e
    | .ok as => .ok (writeG fs outputFile (generateCursorRules (as.filterMap id)))

end GCR

-- ── concrete fixtures used by witnesses and counterexamples ────────────────

/-- Canonical source text declaring a props schema with fields
`[{a, required, string}, {b, optional, number}]`. -/
def c5src : String := "interface FooProps \x7b\n  a: string;\n  b?: number\n\x7d"

/-- Source text whose props schema has the single field `a`, and which
contains, outside the schema, a literal string-union annotation on the
unrelated name `x`. -/
def c1src : String := "interface FooProps \x7b a: string \x7d\nconst x: \"p\" | \"q\" = \"p\""

/-- Source text with an exported const declared before an exported
function. -/
def c4src : String := "export const A = 1\nexport function B(x) \x7b\x7d"

/-- Modelled from the spec: the exported-symbol contract of §4.3 — the
de-duplicated, order-preserving (by first occurrence in the source text)
list of identifiers introduced by an exported function declaration or an
exported constant-initializer declaration, filtered to component names.
Compared against the source's `extractExportedComponents`. -/
def specOrderedExports (source : String) : List String :=
  (GCR.dedupFirst (scanAll
    (fun cs => (GCR.tryFnAt cs).orElse (fun _ => GCR.tryConstAt cs)) source.data)).filter
    GCR.isComponent

/-- Stylesheet fixture: reset and theme present, the other foundational
files absent, a previously-built component stylesheet present. -/
def c2fs : CSS.CFS :=
  ⟨fun p =>
    if p = "src/reset.css" then some "r"
    else if p = "src/theme.css" then some "t"
    else if p = "dist/index.css" then some ".btn\x7b\x7d" else none⟩

/-- Stylesheet fixture: only the reset file exists. -/
def c8fs : CSS.CFS := ⟨fun p => if p = "src/reset.css" then some "r" else none⟩

/-- Flat-generator fixture: one component folder with no entry file at all. -/
def c6fs : P3.JFS := ⟨[("Widget", true)], fun _ => none⟩

/-- A `*Props` type declaration whose body yields no own fields. -/
def c10types : List GCR.TypeDecl := [⟨"FooProps", "interface", "extends Base"⟩]

/-- Generator fixture: an existing but empty primitives root. -/
def c3fs0 : GCR.GFS :=
  ⟨fun p => if p = GCR.primitivesDir then some [] else none, fun _ => false, fun _ => none⟩

/-- The state after one generator run over `c3fs0`. -/
def c3fs1 : GCR.GFS := GCR.writeG c3fs0 GCR.outputFile (GCR.generateCursorRules [])

/-- Generator fixture: no directories exist at all. -/
def c7fs0 : GCR.GFS := ⟨fun _ => none, fun _ => false, fun _ => none⟩

/-- Generator fixture: empty primitives root plus one unrelated file. -/
def c7fs2 : GCR.GFS :=
  ⟨fun p => if p = GCR.primitivesDir then some [] else none, fun _ => false,
   fun p => if p = "keep.txt" then some "k" else none⟩

/-- The state after one generator run over `c7fs2`. -/
def c7fs3 : GCR.GFS := GCR.writeG c7fs2 GCR.outputFile (GCR.generateCursorRules [])

-- ── helper lemmas ──────────────────────────────────────────────────────────

theorem strFuse (a b c : String) (h : a ++ b = c) (x : String) : a ++ (b ++ x) = c ++ x := by
  rw [← String.append_assoc, h]

theorem strEmptyAppend (s : String) : "" ++ s = s := by
  cases s
  rfl

theorem strAppendEmpty (s : String) : s ++ "" = s := by
  cases s with
  | mk l =>
    show String.mk (l ++ []) = String.mk l
    rw [List.append_nil]

theorem sjoinAppend (l1 l2 : List String) : sjoin (l1 ++ l2) = sjoin l1 ++ sjoin l2 := by
  induction l1 with
  | nil => rw [List.nil_append, sjoin, strEmptyAppend]
  | cons x xs ih => rw [List.cons_append, sjoin, sjoin, ih, String.append_assoc]

-- ── C2 ─────────────────────────────────────────────────────────────────────

/-- C2: with exactly `reset.css` and `theme.css` present among the
foundational files and a previously-built component stylesheet `".btn{}"`,
the combined stylesheet written back to `dist/index.css` is, in order, the
tagged reset contents, the tagged theme contents, the component-styles tag
and `".btn{}"`. -/
theorem c2_stylesheet_order (fs : CSS.CFS) (r t : String)
    (h1 : fs.files "src/reset.css" = some r) (h2 : fs.files "src/theme.css" = some t)
    (h3 : fs.files "src/index.css" = none) (h4 : fs.files "src/icons.css" = none)
    (h5 : fs.files "src/responsive.css" = none)
    (h6 : fs.files "dist/index.css" = some ".btn\x7b\x7d") :
    (CSS.runCombine fs).files "dist/index.css" =
      some ("/* reset.css */\n" ++ r ++ "\n\n" ++ "/* theme.css */\n" ++ t ++ "\n\n" ++
        "/* Component styles */\n" ++ ".btn\x7b\x7d") := by
  have e1 : ("src/" ++ "reset.css" : String) = "src/reset.css" := rfl
  have e2 : ("src/" ++ "theme.css" : String) = "src/theme.css" := rfl
  have e3 : ("src/" ++ "index.css" : String) = "src/index.css" := rfl
  have e4 : ("src/" ++ "icons.css" : String) = "src/icons.css" := rfl
  have e5 : ("src/" ++ "responsive.css" : String) = "src/responsive.css" := rfl
  have hw : (CSS.runCombine fs).files "dist/index.css" = some (CSS.combinedCss fs) := rfl
  rw [hw]
  simp only [CSS.combinedCss, CSS.foundationalCss, CSS.cssFiles, List.foldl, CSS.cssStep,
    e1, e2, e3, e4, e5, h1, h2, h3, h4, h5, h6]
  simp only [String.append_assoc, strEmptyAppend]
  rw [strFuse "/* " "reset.css" ("/* " ++ "reset.css") rfl,
    strFuse ("/* " ++ "reset.css") " */\n" "/* reset.css */\n" rfl,
    strFuse "/* " "theme.css" ("/* " ++ "theme.css") rfl,
    strFuse ("/* " ++ "theme.css") " */\n" "/* theme.css */\n" rfl]

/-- C2 witness at a concrete filesystem. -/
theorem c2_stylesheet_order_witness :
    (CSS.runCombine c2fs).files "dist/index.css" =
      some ("/* reset.css */\n" ++ "r" ++ "\n\n" ++ "/* theme.css */\n" ++ "t" ++ "\n\n" ++
        "/* Component styles */\n" ++ ".btn\x7b\x7d") :=
  c2_stylesheet_order c2fs "r" "t" (by decide) (by decide) (by decide) (by decide) (by decide)
    (by decide)

-- ── C8 ─────────────────────────────────────────────────────────────────────

/-- C8: an absent foundational stylesheet contributes nothing to the
combined output (dropping it from the file list leaves the accumulated
foundational text unchanged), and when the previously-built component
stylesheet is absent the run still writes an output consisting of the
foundational parts only, with no component-styles section appended. -/
theorem c8_missing_file_tolerance :
    (∀ (fs : CSS.CFS) (pre post : List String) (f : String),
      fs.files ("src/" ++ f) = none →
        CSS.foundationalCss fs (pre ++ f :: post) = CSS.foundationalCss fs (pre ++ post)) ∧
    (∀ fs : CSS.CFS, fs.files "dist/index.css" = none →
      (CSS.runCombine fs).files "dist/index.css" =
        some (CSS.foundationalCss fs CSS.cssFiles)) := by
  constructor
  · intro fs pre post f h
    simp only [CSS.foundationalCss, List.foldl_append, List.foldl]
    rw [show CSS.cssStep fs (List.foldl (CSS.cssStep fs) "" pre) f =
      List.foldl (CSS.cssStep fs) "" pre by simp [CSS.cssStep, h]]
  · intro fs h
    have hw : (CSS.runCombine fs).files "dist/index.css" = some (CSS.combinedCss fs) := rfl
    rw [hw]
    simp [CSS.combinedCss, h]

/-- C8 witness at a concrete filesystem. -/
theorem c8_missing_file_tolerance_witness :
    CSS.foundationalCss c8fs (["reset.css"] ++ "theme.css" :: []) =
      CSS.foundationalCss c8fs (["reset.css"] ++ []) ∧
    (CSS.runCombine c8fs).files "dist/index.css" =
      some (CSS.foundationalCss c8fs CSS.cssFiles) :=
  ⟨c8_missing_file_tolerance.1 c8fs ["reset.css"] [] "theme.css" (by decide),
   c8_missing_file_tolerance.2 c8fs (by decide)⟩

-- ── C5 ─────────────────────────────────────────────────────────────────────

/-- C5: for the props schema `{ a: string; b?: number }` the extractor
yields exactly the two fields in declaration order with their optionality
and verbatim (trimmed) type text, and the rendered block's Props section is
exactly one correctly tagged line per field. -/
theorem c5_field_fidelity :
    P3.extractProps c5src =
      ⟨[⟨"a", false, "string"⟩, ⟨"b", true, "number"⟩], []⟩ ∧
    P3.docFor "Foo" c5src =
      "Foo\nImport: import \x7b Foo \x7d from \x27@kzatsepin-xla/components/ui/primitives/Foo\x27\n" ++
        "Props:\n  - a: string (required)\n  - b?: number (optional)\n" := by
  constructor
  · decide
  · decide

-- ── C9 ─────────────────────────────────────────────────────────────────────

theorem ebbGoPrefix (b : Bool) :
    ∀ (cs : List Char) (d : Int) (st : Bool), ∃ t, cs = GCR.ebbGo b d st cs ++ t := by
  intro cs
  induction cs with
  | nil => intro d st; exact ⟨[], rfl⟩
  | cons c cs ih =>
    intro d st
    have key : ∀ (P : Prop) [Decidable P] (d' : Int) (st' : Bool),
        ∃ t, c :: cs = (c :: if P then [] else GCR.ebbGo b d' st' cs) ++ t := by
      intro P _ d' st'
      by_cases hP : P
      · exact ⟨cs, by rw [if_pos hP, List.singleton_append]⟩
      · obtain ⟨t, ht⟩ := ih d' st'
        exact ⟨t, by rw [if_neg hP, List.cons_append, ← ht]⟩
    simp only [GCR.ebbGo]
    exact key _ _ _

/-- C9: the balanced-delimiter body scanner is total (it is a structurally
recursive function of the remaining text) and on any input text, start
index and mode it returns a prefix of the remaining text — the text
accumulated up to its stopping point, or the whole remainder when no
stopping point is reached. -/
theorem c9_balanced_scan_total (s : String) (idx : Nat) (b : Bool) :
    ∃ t, s.data.drop idx = (GCR.extractBalancedBody s idx b).data ++ t :=
  ebbGoPrefix b (s.data.drop idx) 0 false

-- ── C1 ─────────────────────────────────────────────────────────────────────

/-- C1 counterexample: in `c1src` the literal union sits on the name `x`,
which is not among the schema's fields (those are exactly `[a]`), yet the
extractor records `x` as a variant and the rendered block does contain a
Variants line for it — refuting the claim that such a union produces no
Variants line. -/
theorem c1_counterexample :
    (P3.extractProps c1src).variants.map Prod.fst = ["x"] ∧
    (P3.extractProps c1src).props.map P3.PropField.name = ["a"] ∧
    containsStr (P3.docFor "Foo" c1src) "Variants:\n  - x: \"p\" | \"q\"\n" = true := by
  exact ⟨by decide, by decide, by decide⟩

/-- C1 (amended): every literal string-union match found anywhere in the
scanned file is recorded as a variant and produces a Variants line in the
component's block, whether or not its field name appears in the schema's
field list — no filtering against the field list is performed. -/
theorem c1_amended_variants_unfiltered (name content k : String) (vs : List String)
    (h : (k, vs) ∈ (P3.extractProps content).variants) :
    ∃ pre post, P3.docFor name content =
      pre ++ ("  - " ++ k ++ ": " ++
        intercalateS " | " (vs.map (fun v => "\"" ++ v ++ "\"")) ++ "\n") ++ post := by
  obtain ⟨u, w, huw⟩ := List.append_of_mem h
  have hne : (P3.extractProps content).variants.isEmpty = false := by
    rw [huw]; cases u <;> rfl
  obtain ⟨a, ha⟩ : ∃ a, P3.docFor name content = a ++
      (if (P3.extractProps content).variants.isEmpty then ""
       else "Variants:\n" ++ sjoin ((P3.extractProps content).variants.map P3.variantLine)) :=
    ⟨_, rfl⟩
  rw [ha, hne]
  rw [huw, List.map_append, sjoinAppend, List.map_cons, sjoin]
  refine ⟨a ++ "Variants:\n" ++ sjoin (List.map P3.variantLine u),
    sjoin (List.map P3.variantLine w), ?_⟩
  simp only [P3.variantLine, Bool.false_eq_true, if_false, String.append_assoc]

/-- C1 amended-claim witness at the concrete input. -/
theorem c1_amended_variants_unfiltered_witness :
    ∃ pre post, P3.docFor "Foo" c1src =
      pre ++ ("  - " ++ "x" ++ ": " ++
        intercalateS " | " (["p", "q"].map (fun v => "\"" ++ v ++ "\"")) ++ "\n") ++ post :=
  c1_amended_variants_unfiltered "Foo" c1src "x" ["p", "q"] (by decide)

-- ── C4 ─────────────────────────────────────────────────────────────────────

/-- C4 counterexample: in `c4src` the const `A` occurs before the function
`B`, so the first-occurrence order is `[A, B]`; the extractor nevertheless
returns `[B, A]`, because it lists all function-declaration matches before
all const-declaration matches. -/
theorem c4_counterexample :
    (GCR.extractExportedComponents c4src).filter GCR.isComponent = ["B", "A"] ∧
    specOrderedExports c4src = ["A", "B"] ∧
    (GCR.extractExportedComponents c4src).filter GCR.isComponent ≠ specOrderedExports c4src := by
  exact ⟨by decide, by decide, by decide⟩

theorem dedupAuxMem (x : String) : ∀ (l seen : List String),
    x ∈ GCR.dedupAux seen l ↔ x ∈ l ∧ x ∉ seen := by
  intro l
  induction l with
  | nil => intro seen; simp [GCR.dedupAux]
  | cons y ys ih =>
    intro seen
    simp only [GCR.dedupAux]
    by_cases hy : y ∈ seen
    · rw [if_pos (by simpa using hy), ih]
      constructor
      · rintro ⟨hx, hc⟩
        exact ⟨List.mem_cons_of_mem _ hx, hc⟩
      · rintro ⟨hx, hc⟩
        rcases List.mem_cons.mp hx with h | h
        · exact absurd (h ▸ hy) hc
        · exact ⟨h, hc⟩
    · rw [if_neg (by simpa using hy)]
      simp only [List.mem_cons, ih, List.mem_cons]
      by_cases hxy : x = y
      · subst hxy
        simp [hy]
      · simp [hxy]

theorem dedupAuxNodup : ∀ (l seen : List String), (GCR.dedupAux seen l).Nodup := by
  intro l
  induction l with
  | nil => intro seen; simp [GCR.dedupAux]
  | cons y ys ih =>
    intro seen
    simp only [GCR.dedupAux]
    by_cases hy : y ∈ seen
    · rw [if_pos (by simpa using hy)]; exact ih seen
    · rw [if_neg (by simpa using hy)]
      refine List.nodup_cons.mpr ⟨?_, ih (y :: seen)⟩
      intro hmem
      exact ((dedupAuxMem y ys (y :: seen)).mp hmem).2 (List.mem_cons_self y seen)

/-- C4 (amended): the extractor's output (after the caller's component
filter) is de-duplicated and contains exactly the exported function- and
const-declaration identifiers that begin with an uppercase letter and do
not end in `Props`; its order lists the function-declaration matches first
and the const-declaration matches second, each kind in occurrence order
with the first occurrence kept — not the global first-occurrence order. -/
theorem c4_amended_order_by_kind (s : String) :
    ((GCR.extractExportedComponents s).filter GCR.isComponent).Nodup ∧
    (∀ n, n ∈ (GCR.extractExportedComponents s).filter GCR.isComponent ↔
      ((n ∈ scanAll GCR.tryFnAt s.data ∨ n ∈ scanAll GCR.tryConstAt s.data) ∧
        GCR.isComponent n = true)) ∧
    GCR.extractExportedComponents s =
      GCR.dedupFirst (scanAll GCR.tryFnAt s.data ++ scanAll GCR.tryConstAt s.data) := by
  refine ⟨(dedupAuxNodup _ []).filter _, ?_, rfl⟩
  intro n
  rw [List.mem_filter]
  unfold GCR.extractExportedComponents GCR.dedupFirst
  rw [dedupAuxMem]
  simp [List.mem_append]

-- ── C6 ─────────────────────────────────────────────────────────────────────

/-- C6: when neither a component-named file nor an `index.tsx` exists in a
group's folder, the resolver yields `null`, the group is excluded from the
enumeration so every emitted block belongs to some other group, and the run
still completes with the output written. -/
theorem c6_missing_entry_skip (fs : P3.JFS) (name : String)
    (h1 : fs.files (joinP (joinP P3.primitivesDir name) (name ++ ".tsx")) = none)
    (h2 : fs.files (joinP (joinP P3.primitivesDir name) "index.tsx") = none) :
    P3.findComponentFile fs (joinP P3.primitivesDir name) name = none ∧
    name ∉ P3.componentsOf fs ∧
    (∀ d ∈ P3.componentDocs fs, ∃ n, n ∈ P3.componentsOf fs ∧ n ≠ name ∧
      P3.docEntryOpt fs n = some d) ∧
    (P3.runPart3 fs).files ".cursorrules" = some (P3.cursorrulesOf fs) := by
  have pt1 : P3.findComponentFile fs (joinP P3.primitivesDir name) name = none := by
    simp [P3.findComponentFile, h1, h2]
  have pt2 : name ∉ P3.componentsOf fs := by
    intro hmem
    simp only [P3.componentsOf, List.mem_map] at hmem
    obtain ⟨d, hd, hdn⟩ := hmem
    rw [List.mem_filter] at hd
    have hsome := hd.2
    rw [hdn, h2] at hsome
    cases hsome
  refine ⟨pt1, pt2, ?_, by simp [P3.runPart3]⟩
  intro d hd
  simp only [P3.componentDocs, List.mem_filterMap] at hd
  obtain ⟨n, hn, he⟩ := hd
  exact ⟨n, hn, fun heq => pt2 (heq ▸ hn), he⟩

/-- C6 witness: a group folder with no entry file at all. -/
theorem c6_missing_entry_skip_witness :
    P3.findComponentFile c6fs (joinP P3.primitivesDir "Widget") "Widget" = none ∧
    "Widget" ∉ P3.componentsOf c6fs ∧
    (∀ d ∈ P3.componentDocs c6fs, ∃ n, n ∈ P3.componentsOf c6fs ∧ n ≠ "Widget" ∧
      P3.docEntryOpt c6fs n = some d) ∧
    (P3.runPart3 c6fs).files ".cursorrules" = some (P3.cursorrulesOf c6fs) :=
  c6_missing_entry_skip c6fs "Widget" rfl rfl

-- ── C10 ────────────────────────────────────────────────────────────────────

/-- C10: a component group with at least one exported `*Props` type but
zero extracted own fields still renders a Props entry: the Props header
appears in its block, and the code block holds the fixed placeholder line
instead of field lines. -/
theorem c10_props_placeholder (dn : String) (comps : List String)
    (types : List GCR.TypeDecl)
    (h1 : ∃ t ∈ types, endsWithB t.name "Props" = true)
    (h2 : ∀ t ∈ types, GCR.extractOwnFields t.body = []) :
    "**Props:**" ∈ GCR.componentLines ⟨dn, comps, GCR.summariseProps types⟩ ∧
    "  (extends base RAC / HTML props)" ∈
      GCR.componentLines ⟨dn, comps, GCR.summariseProps types⟩ := by
  obtain ⟨t, ht, hp⟩ := h1
  have htf : t ∈ types.filter (fun t => endsWithB t.name "Props") :=
    List.mem_filter.mpr ⟨ht, hp⟩
  have hmem : (⟨t.name, GCR.extractOwnFields t.body⟩ : GCR.PropsSummary) ∈
      GCR.summariseProps types := List.mem_map_of_mem _ htf
  have hne : (GCR.summariseProps types).isEmpty = false := by
    cases hsp : GCR.summariseProps types with
    | nil => rw [hsp] at hmem; cases hmem
    | cons a l => rfl
  have hps : "  (extends base RAC / HTML props)" ∈
      GCR.psLines ⟨t.name, GCR.extractOwnFields t.body⟩ := by
    rw [h2 t ht]
    simp [GCR.psLines]
  constructor
  · simp [GCR.componentLines, hne, List.mem_append]
  · have hflat : "  (extends base RAC / HTML props)" ∈
        ((GCR.summariseProps types).map GCR.psLines).flatten :=
      List.mem_flatten.mpr ⟨_, List.mem_map_of_mem _ hmem, hps⟩
    simp only [GCR.componentLines, hne, Bool.false_eq_true, if_false]
    exact List.mem_append.mpr (Or.inl (List.mem_append.mpr (Or.inr
      (List.mem_append.mpr (Or.inr hflat)))))

/-- C10 witness at a concrete analysis. -/
theorem c10_props_placeholder_witness :
    "**Props:**" ∈ GCR.componentLines ⟨"Foo", ["Foo"], GCR.summariseProps c10types⟩ ∧
    "  (extends base RAC / HTML props)" ∈
      GCR.componentLines ⟨"Foo", ["Foo"], GCR.summariseProps c10types⟩ :=
  c10_props_placeholder "Foo" ["Foo"] c10types (by decide) (by decide)

-- ── C7 ─────────────────────────────────────────────────────────────────────

theorem pathNeOutputG (a b : String) :
    joinP (joinP GCR.primitivesDir a) b ≠ GCR.outputFile := by
  intro h
  have hl := congrArg String.length h
  simp only [joinP, String.length_append] at hl
  have h1 : String.length GCR.primitivesDir = 17 := rfl
  have h2 : String.length "/" = 1 := rfl
  have h3 : String.length GCR.outputFile = 12 := rfl
  rw [h1, h2, h3] at hl
  omega

theorem filesEqWriteG (fs : GCR.GFS) (p c q : String) (h : q ≠ p) :
    (GCR.writeG fs p c).files q = fs.files q := by
  simp [GCR.writeG, h]

/-- C7: a missing components root makes the run fail with the enumeration
error before anything is written, and a successful run changes the
filesystem only at the single output path, written once at the end. -/
theorem c7_fatal_no_partial_output :
    (∀ fs : GCR.GFS, fs.dirs GCR.primitivesDir = none →
      GCR.runGenMain fs = Except.error GCR.FsErr.enoent) ∧
    (∀ (fs fs' : GCR.GFS), GCR.runGenMain fs = Except.ok fs' →
      ∀ p, p ≠ GCR.outputFile → fs'.files p = fs.files p) := by
  constructor
  · intro fs h
    simp [GCR.runGenMain, GCR.getComponentDirs, h]
  · intro fs fs' h p hp
    unfold GCR.runGenMain at h
    split at h
    · cases h
    · split at h
      · cases h
      · injection h with h1
        rw [← h1]
        simp [GCR.writeG, hp]

/-- C7 witness: a filesystem with no directories at all, and a successful
run over an empty primitives root leaving an unrelated path untouched. -/
theorem c7_fatal_no_partial_output_witness :
    GCR.runGenMain c7fs0 = Except.error GCR.FsErr.enoent ∧
    c7fs3.files "keep.txt" = c7fs2.files "keep.txt" :=
  ⟨c7_fatal_no_partial_output.1 c7fs0 rfl,
   c7_fatal_no_partial_output.2 c7fs2 c7fs3 rfl "keep.txt" (by decide)⟩

-- ── C3 ─────────────────────────────────────────────────────────────────────

theorem readConcatWriteG (fs : GCR.GFS) (c d : String) :
    ∀ (l : List String) (acc : String),
      GCR.readConcat (GCR.writeG fs GCR.outputFile c) (joinP GCR.primitivesDir d) l acc =
        GCR.readConcat fs (joinP GCR.primitivesDir d) l acc := by
  intro l
  induction l with
  | nil => intro acc; rfl
  | cons f rest ih =>
    intro acc
    simp only [GCR.readConcat]
    rw [show (GCR.writeG fs GCR.outputFile c).files (joinP (joinP GCR.primitivesDir d) f) =
      fs.files (joinP (joinP GCR.primitivesDir d) f) from
      filesEqWriteG fs GCR.outputFile c _ (pathNeOutputG d f)]
    cases fs.files (joinP (joinP GCR.primitivesDir d) f) with
    | none => rfl
    | some v => exact ih _

theorem analyseWriteG (fs : GCR.GFS) (c d : String) :
    GCR.analyseComponent (GCR.writeG fs GCR.outputFile c) d = GCR.analyseComponent fs d := by
  simp only [GCR.analyseComponent]
  have ht : GCR.getTsxFiles (GCR.writeG fs GCR.outputFile c) (joinP GCR.primitivesDir d) =
      GCR.getTsxFiles fs (joinP GCR.primitivesDir d) := rfl
  rw [ht]
  cases GCR.getTsxFiles fs (joinP GCR.primitivesDir d) with
  | error e => rfl
  | ok tsx =>
    split
    all_goals first
    | rfl
    | rw [readConcatWriteG]

theorem mapECongr {α β : Type} (f g : α → Except GCR.FsErr β) :
    ∀ l : List α, (∀ x ∈ l, f x = g x) → GCR.mapE f l = GCR.mapE g l := by
  intro l
  induction l with
  | nil => intro _; rfl
  | cons x xs ih =>
    intro h
    simp only [GCR.mapE]
    rw [h x (List.mem_cons_self x xs), ih (fun y hy => h y (List.mem_cons_of_mem x hy))]

theorem gfsEq (a b : GCR.GFS) (h1 : a.dirs = b.dirs) (h2 : a.isDir = b.isDir)
    (h3 : a.files = b.files) : a = b := by
  cases a; cases b; simp_all

theorem pathNeCursorP3 (a b : String) :
    joinP (joinP P3.primitivesDir a) b ≠ ".cursorrules" := by
  intro h
  have hl := congrArg String.length h
  simp only [joinP, String.length_append] at hl
  have h1 : String.length P3.primitivesDir = 17 := rfl
  have h2 : String.length "/" = 1 := rfl
  have h3 : String.length ".cursorrules" = 12 := rfl
  rw [h1, h2, h3] at hl
  omega

theorem filesEqRunPart3 (fs : P3.JFS) (q : String) (h : q ≠ ".cursorrules") :
    (P3.runPart3 fs).files q = fs.files q := by
  simp [P3.runPart3, h]

theorem componentsOfRunP3 (fs : P3.JFS) :
    P3.componentsOf (P3.runPart3 fs) = P3.componentsOf fs := by
  simp only [P3.componentsOf]
  have hd : (P3.runPart3 fs).dirents = fs.dirents := rfl
  rw [hd]
  congr 1

theorem filterMapCongr {α β : Type} (f g : α → Option β) :
    ∀ l : List α, (∀ x ∈ l, f x = g x) → l.filterMap f = l.filterMap g := by
  intro l
  induction l with
  | nil => intro _; rfl
  | cons x xs ih =>
    intro h
    simp only [List.filterMap_cons]
    rw [h x (List.mem_cons_self x xs),
      ih (fun y hy => h y (List.mem_cons_of_mem x hy))]

theorem docEntryOptRunP3 (fs : P3.JFS) (n : String) :
    P3.docEntryOpt (P3.runPart3 fs) n = P3.docEntryOpt fs n := by
  have e1 : (P3.runPart3 fs).files (joinP (joinP P3.primitivesDir n) (n ++ ".tsx")) =
      fs.files (joinP (joinP P3.primitivesDir n) (n ++ ".tsx")) :=
    filesEqRunPart3 fs _ (pathNeCursorP3 n (n ++ ".tsx"))
  have e2 : (P3.runPart3 fs).files (joinP (joinP P3.primitivesDir n) "index.tsx") =
      fs.files (joinP (joinP P3.primitivesDir n) "index.tsx") :=
    filesEqRunPart3 fs _ (pathNeCursorP3 n "index.tsx")
  simp only [P3.docEntryOpt, P3.findComponentFile, e1, e2]
  by_cases hA : (fs.files (joinP (joinP P3.primitivesDir n) (n ++ ".tsx"))).isSome = true
  · simp only [if_pos hA]
    rw [e1]
  · simp only [if_neg hA]
    by_cases hB : (fs.files (joinP (joinP P3.primitivesDir n) "index.tsx")).isSome = true
    · simp only [if_pos hB]
      rw [e2]
    · simp only [if_neg hB]

theorem componentDocsRunP3 (fs : P3.JFS) :
    P3.componentDocs (P3.runPart3 fs) = P3.componentDocs fs := by
  simp only [P3.componentDocs]
  rw [componentsOfRunP3]
  exact filterMapCongr _ _ _ (fun n _ => docEntryOptRunP3 fs n)

theorem cursorrulesRunP3 (fs : P3.JFS) :
    P3.cursorrulesOf (P3.runPart3 fs) = P3.cursorrulesOf fs := by
  simp only [P3.cursorrulesOf]
  rw [componentsOfRunP3, componentDocsRunP3]

theorem jfsEq (a b : P3.JFS) (h1 : a.dirents = b.dirents) (h2 : a.files = b.files) :
    a = b := by
  cases a; cases b; simp_all

/-- C3: both rule generators are deterministic functions of the enumerated
directory entries and the file texts alone; since the single write goes to
an output path outside the scanned tree, re-running over the unchanged tree
reproduces the state byte for byte (running again is the identity). -/
theorem c3_idempotent_regeneration :
    (∀ (fs fs₁ : GCR.GFS), GCR.runGenMain fs = Except.ok fs₁ →
      GCR.runGenMain fs₁ = Except.ok fs₁) ∧
    (∀ fs : P3.JFS, P3.runPart3 (P3.runPart3 fs) = P3.runPart3 fs) := by
  constructor
  · intro fs fs₁ h
    unfold GCR.runGenMain at h
    split at h
    · cases h
    · rename_i ds e1
      split at h
      · cases h
      · rename_i as e2
        injection h with h1
        unfold GCR.runGenMain
        have g1 : GCR.getComponentDirs fs₁ = Except.ok ds := by
          rw [← h1]; exact e1
        have g2 : GCR.mapE (GCR.analyseComponent fs₁) ds = Except.ok as := by
          rw [← h1,
            mapECongr _ (GCR.analyseComponent fs) ds (fun x _ => analyseWriteG fs _ x)]
          exact e2
        simp only [g1]
        simp only [g2]
        congr 1
        apply gfsEq
        · rw [← h1]; rfl
        · rw [← h1]; rfl
        · funext q
          by_cases hq : q = GCR.outputFile
          · subst hq
            rw [← h1]
            simp [GCR.writeG]
          · rw [← h1]
            simp [GCR.writeG, hq]
  · intro fs
    apply jfsEq
    · rfl
    · funext q
      by_cases hq : q = ".cursorrules"
      · subst hq
        show (P3.runPart3 (P3.runPart3 fs)).files ".cursorrules" =
          (P3.runPart3 fs).files ".cursorrules"
        have hL : ∀ gs : P3.JFS,
            (P3.runPart3 gs).files ".cursorrules" = some (P3.cursorrulesOf gs) :=
          fun gs => by simp [P3.runPart3]
        rw [hL, hL, cursorrulesRunP3]
      · rw [filesEqRunPart3 _ _ hq, filesEqRunPart3 _ _ hq]

/-- C3 witness: a second run over the state left by a first run. -/
theorem c3_idempotent_regeneration_witness :
    GCR.runGenMain c3fs1 = Except.ok c3fs1 :=
  c3_idempotent_regeneration.1 c3fs0 c3fs1 rfl
